import Mathlib

/-!
Verification of the resource-ledger lifecycle of the `gcp_setup` repository
(`main.py` and `container/main.py`), as a shallow embedding in Lean.

Modelling conventions:
* A Python JSON value is the inductive `Json`; a Python `dict` is an
  association list with first-match lookup (`dictGet`, mirroring `dict.get`).
* The ledger file `container/gcp_created_resources.json` is modelled as
  `Option Json`: `none` when the file is absent, `some j` when it holds `j`.
* Python string slicing `s[:n]` is `pyTake s n` (code-point take).
* Cloud calls are not executed; their outcomes are inputs (`SetupEnv`,
  `ResetEnv`, `HttpOutcome`, `FetchOutcome`) and each function returns the
  trace of calls it would have made, so claims about call order and
  tolerance of individual failures are statements about those traces.
* A Python exception that the source catches becomes an ordinary value of
  the result type; an exception the source does not catch becomes a
  `fatal` result (the process dies with a traceback).
-/

namespace GcpSetup

/-- A JSON value, as produced by Python `json.dump` / `json.load`. -/
inductive Json where
  | null : Json
  | str (s : String) : Json
  | num (n : Nat) : Json
  | arr (elems : List Json) : Json
  | obj (fields : List (String × Json)) : Json

/-- First-match lookup in a JSON object, mirroring Python `dict.get(k)`
(returning `none` when the key is absent). -/
def dictGet (d : List (String × Json)) (k : String) : Option Json :=
  match d with
  | [] => none
  | (k', v) :: rest => if k' = k then some v else dictGet rest k

/-- Python string slice `s[:n]`: the first `n` code points of `s`. -/
def pyTake (s : String) (n : Nat) : String :=
  ⟨s.data.take n⟩

/-- The record persisted in `container/gcp_created_resources.json`:
`buckets` (list of created bucket names), optional `cloud_run_service`
and `cloud_run_url`. -/
structure Ledger where
  buckets : List String
  cloud_run_service : Option String
  cloud_run_url : Option String
deriving DecidableEq, Repr

/-- Serialize a ledger record the way `json.dump(created_resources, f)`
writes the Python dict: `buckets` always present, each optional field
present exactly when populated. -/
def Ledger.toJson (l : Ledger) : Json :=
  Json.obj ([("buckets", Json.arr (l.buckets.map Json.str))]
    ++ (match l.cloud_run_service with
        | some s => [("cloud_run_service", Json.str s)]
        | none => [])
    ++ (match l.cloud_run_url with
        | some u => [("cloud_run_url", Json.str u)]
        | none => []))

/-- Decode a JSON array whose elements are all strings. -/
def decodeStrings : List Json → Option (List String)
  | [] => some []
  | Json.str s :: rest => (decodeStrings rest).map (s :: ·)
  | _ => none

/-- The `created_resources.get("buckets", [])` access: an absent key is an
empty list; a present key must be an array of strings. -/
def decodeBuckets (o : Option Json) : Option (List String) :=
  match o with
  | none => some []
  | some (Json.arr l) => decodeStrings l
  | some _ => none

/-- The `created_resources.get(k)` access for an optional string field:
an absent key is `none`; a present key must be a string. -/
def decodeOptStr (o : Option Json) : Option (Option String) :=
  match o with
  | none => some none
  | some (Json.str s) => some (some s)
  | some _ => none

/-- Read a ledger record back from its JSON form, with exactly the field
accesses `gcp_reset` performs (`.get("buckets", [])`,
`.get("cloud_run_service")`, `.get("cloud_run_url")`). Returns `none` for
a JSON value whose shape the script never produces. -/
def Ledger.fromJson (j : Json) : Option Ledger :=
  match j with
  | Json.obj d => do
      let bs ← decodeBuckets (dictGet d "buckets")
      let sv ← decodeOptStr (dictGet d "cloud_run_service")
      let url ← decodeOptStr (dictGet d "cloud_run_url")
      some ⟨bs, sv, url⟩
  | _ => none

/-- `save(record)`: `open(RESOURCE_LOG_FILE, "w"); json.dump(record, f)` —
the whole file is replaced by the record's JSON form. -/
def ledger_save (led : Ledger) (_fs : Option Json) : Option Json :=
  some led.toJson

/-- `load()`: absent file is the valid empty state (`some none`); a present
file is parsed and its fields read back (`none` only for JSON shapes the
script never writes). -/
def ledger_read (fs : Option Json) : Option (Option Ledger) :=
  match fs with
  | none => some none
  | some j => (Ledger.fromJson j).map some

theorem decodeStrings_map_str (l : List String) :
    decodeStrings (l.map Json.str) = some l := by
  induction l with
  | nil => rfl
  | cons s rest ih => simp [decodeStrings, ih]

theorem Ledger.fromJson_toJson (led : Ledger) :
    Ledger.fromJson led.toJson = some led := by
  obtain ⟨bs, sv, url⟩ := led
  cases sv <;> cases url <;>
    simp [Ledger.toJson, Ledger.fromJson, dictGet, decodeBuckets,
      decodeOptStr, decodeStrings_map_str]

/-- Outcome of the single `requests.get(service_url, timeout=timeout)` in
`verify_service_and_fetch`: either the call raised (`exn`), or it returned a
response with a status code, a body text, and — when `r.json()` succeeds and
yields a dict — that dict (`jsonDict = none` covers a non-JSON body and a
JSON body that is not an object, where `list(j.keys())` raises). -/
inductive HttpOutcome where
  | exn (msg : String)
  | resp (status : Nat) (text : String) (jsonDict : Option (List (String × Json)))

/-- Result of `verify_service_and_fetch`: the printed report lines and the
trace of HTTP GET calls made, each with its URL and timeout. -/
structure VerifyOut where
  lines : List String
  calls : List (String × Nat)

/-- `verify_service_and_fetch(service_url, timeout=20)`: one GET; every
failure path (request exception, non-JSON or non-dict body, missing or
non-string excerpt) is caught and printed, never raised — the function is
total and returns a report. -/
def verify_service_and_fetch (service_url : String) (o : HttpOutcome)
    (timeout : Nat := 20) : VerifyOut :=
  match o with
  | HttpOutcome.exn e =>
      { lines := ["Failed to call service URL: " ++ e]
        calls := [(service_url, timeout)] }
  | HttpOutcome.resp status text jsonDict =>
      let head := "Service returned status " ++ toString status
      let rest :=
        match jsonDict with
        | some d =>
            let keysLine := "Response JSON keys: " ++ toString (d.map (·.1))
            match dictGet d "example_excerpt" with
            | some (Json.str ex) =>
                [keysLine, "Example.com excerpt: " ++ pyTake ex 500]
            | some _ =>
                -- a non-sliceable excerpt raises inside the inner try;
                -- the handler prints the raw body instead
                [keysLine, "Response body (first 1000 chars): " ++ pyTake text 1000]
            | none => [keysLine]
        | none => ["Response body (first 1000 chars): " ++ pyTake text 1000]
      { lines := head :: rest, calls := [(service_url, timeout)] }

/-- The environment a `setup` run meets: the hex digest of `uuid.uuid4()`,
whether credential loading and bucket creation succeed, the outcome of the
build-and-deploy step (`Except.ok url` or the raised error), and the
response the verification GET would receive. -/
structure SetupEnv where
  uuidHex : String
  credsOk : Bool
  createBucketOk : Bool
  deployResult : Except String String
  verifyOutcome : HttpOutcome

/-- Final state of a `setup` run. `fatal` marks an exception the source
does not catch (credential loading, bucket creation); `deployFailed` is the
caught build/deploy exception after which the run still ends normally. -/
inductive SetupResult where
  | fatal (stage : String) (msg : String)
  | deployFailed (msg : String)
  | ok (url : String)
deriving DecidableEq, Repr

/-- Result of a `setup` run: the ledger file afterwards, the sequence of
ledger writes performed, the run's outcome and the verification report. -/
structure SetupOut where
  fs : Option Json
  writes : List Json
  result : SetupResult
  verifyLines : List String

/-- The bucket name generated by `gcp_setup`:
`f"automation-bucket-{uuid.uuid4().hex[:8]}"`. -/
def bucket_name (env : SetupEnv) : String :=
  "automation-bucket-" ++ pyTake env.uuidHex 8

/-- `gcp_setup(sa_json_path, project_id, service_name)`: load credentials,
create the bucket, persist `{"buckets": [name], "cloud_run_service":
service_name}`, then try to build/deploy; on success verify once and
rewrite the ledger with `cloud_run_url` added; on deploy failure keep the
first ledger write and end normally. -/
def gcp_setup (env : SetupEnv) (fs : Option Json)
    (service_name : String := "example-fetcher") : SetupOut :=
  if env.credsOk = false then
    { fs := fs, writes := [], result := .fatal "credentials" "load_credentials raised"
      verifyLines := [] }
  else if env.createBucketOk = false then
    { fs := fs, writes := [], result := .fatal "bucket" "create_bucket raised"
      verifyLines := [] }
  else
    let created₁ : Ledger :=
      { buckets := [bucket_name env]
        cloud_run_service := some service_name
        cloud_run_url := none }
    let fs₁ := ledger_save created₁ fs
    match env.deployResult with
    | Except.error e =>
        { fs := fs₁, writes := [created₁.toJson], result := .deployFailed e
          verifyLines := [] }
    | Except.ok url =>
        let vrep := verify_service_and_fetch url env.verifyOutcome
        let created₂ : Ledger := { created₁ with cloud_run_url := some url }
        { fs := ledger_save created₂ fs₁
          writes := [created₁.toJson, created₂.toJson]
          result := .ok url
          verifyLines := vrep.lines }

/-- One deletion attempt recorded by a `reset` run, with its outcome. -/
inductive DeleteAttempt where
  | bucket (name : String) (ok : Bool)
  | service (name : String) (ok : Bool)
deriving DecidableEq, Repr

/-- Final state of a `reset` run. -/
inductive ResetResult where
  | fatalCreds
  | nothingToDo
  | completed
deriving DecidableEq, Repr

/-- The environment a `reset` run meets: whether credential loading
succeeds and whether each cloud deletion would succeed. -/
structure ResetEnv where
  credsOk : Bool
  deleteBucketOk : String → Bool
  deleteServiceOk : Bool

/-- Result of a `reset` run: the ledger file afterwards, the deletion
attempts in order, and the run's outcome. -/
structure ResetOut where
  fs : Option Json
  attempts : List DeleteAttempt
  result : ResetResult

/-- The `if service_name:` guard of `gcp_reset`: the service deletion is
attempted exactly when the field is present and non-empty (Python
truthiness skips both `None` and `""`). -/
def serviceAttempts (env : ResetEnv) (svc : Option String) : List DeleteAttempt :=
  match svc with
  | some s => if s = "" then [] else [DeleteAttempt.service s env.deleteServiceOk]
  | none => []

/-- `gcp_reset(sa_json_path, project_id)`: load credentials; if the ledger
file is absent, print "Nothing to delete" and return; otherwise attempt a
forced delete of each listed bucket in order (each in its own try/except),
then the service if one is named, then `os.remove` the file
unconditionally. Returns `none` only for a ledger JSON shape the script
never writes (not modelled). -/
def gcp_reset (env : ResetEnv) (fs : Option Json) : Option ResetOut :=
  if env.credsOk = false then
    some { fs := fs, attempts := [], result := .fatalCreds }
  else
    match fs with
    | none => some { fs := none, attempts := [], result := .nothingToDo }
    | some j =>
        match Ledger.fromJson j with
        | none => none
        | some led =>
            some { fs := none
                   attempts :=
                     led.buckets.map (fun b => DeleteAttempt.bucket b (env.deleteBucketOk b))
                       ++ serviceAttempts env led.cloud_run_service
                   result := .completed }

/-- The bucket names a list of deletion attempts touches, in order. -/
def attemptedBuckets (l : List DeleteAttempt) : List String :=
  l.filterMap fun a =>
    match a with
    | DeleteAttempt.bucket n _ => some n
    | DeleteAttempt.service _ _ => none

/-- The service names a list of deletion attempts touches, in order. -/
def attemptedServices (l : List DeleteAttempt) : List String :=
  l.filterMap fun a =>
    match a with
    | DeleteAttempt.service n _ => some n
    | DeleteAttempt.bucket _ _ => none

/-- Container metadata read by the deployed service's handler
(`container/main.py`): the `K_SERVICE`, `K_REVISION`, `GCP_PROJECT`
environment variables and the hostname. -/
structure ContainerEnv where
  k_service : Option String
  k_revision : Option String
  gcp_project : Option String
  hostname : String

/-- Outcome of the handler's `requests.get("https://example.com",
timeout=10)`: a response with status and text, or a raised exception. -/
inductive FetchOutcome where
  | ok (status : Nat) (text : String)
  | exn (msg : String)

/-- How `flask.jsonify` renders a possibly-absent environment variable:
`None` becomes JSON `null`. -/
def optStrJson : Option String → Json
  | some s => Json.str s
  | none => Json.null

/-- The `index` route of `container/main.py`: fetch example.com (on
exception, body `"ERROR_FETCHING: ..."` and status 500), then return the
info JSON and the same status code as the HTTP response status. -/
def index (cenv : ContainerEnv) (fetch : FetchOutcome) : Json × Nat :=
  let bodyStatus :=
    match fetch with
    | FetchOutcome.ok s t => (t, s)
    | FetchOutcome.exn e => ("ERROR_FETCHING: " ++ e, 500)
  let body := bodyStatus.1
  let status_code := bodyStatus.2
  let info := Json.obj
    [ ("service_env", Json.obj
        [ ("K_SERVICE", optStrJson cenv.k_service)
        , ("K_REVISION", optStrJson cenv.k_revision)
        , ("GCP_PROJECT", optStrJson cenv.gcp_project)
        , ("HOSTNAME", Json.str cenv.hostname) ])
    , ("example_status", Json.num status_code)
    , ("example_excerpt", Json.str (pyTake body 2000)) ]
  (info, status_code)

/-- Lowercase hexadecimal digit, the alphabet of `uuid.uuid4().hex`. -/
def isHexLower (c : Char) : Bool :=
  c.isDigit || ('a' ≤ c && c ≤ 'f')

/-- Any `reset` run that starts with usable credentials ends with the
ledger file absent: both the nothing-to-do branch and the deletion branch
leave no file behind. -/
theorem gcp_reset_ends_without_file (env : ResetEnv) (fs : Option Json)
    (out : ResetOut) (h₁ : env.credsOk = true)
    (h : gcp_reset env fs = some out) : out.fs = none := by
  cases fs with
  | none =>
      simp [gcp_reset, h₁] at h
      rw [← h]
  | some j =>
      cases hdec : Ledger.fromJson j with
      | none => simp [gcp_reset, h₁, hdec] at h
      | some led =>
          simp [gcp_reset, h₁, hdec] at h
          rw [← h]

/-- C4: for every valid ledger record, with any combination of the optional
service-name and service-URL fields populated or absent, saving the record
to the ledger file and then loading it yields a record equal to the
input. -/
theorem c4_save_load_roundtrip (led : Ledger) (fs : Option Json) :
    ledger_read (ledger_save led fs) = some (some led) := by
  simp [ledger_read, ledger_save, Ledger.fromJson_toJson]

/-- C2: with the ledger file absent, `gcp_reset` reports nothing to do,
performs no deletion calls, and terminates successfully; consequently a
`reset` immediately after any completed `reset` is such a no-op. -/
theorem c2_reset_idempotent (env env₂ : ResetEnv) (fs : Option Json)
    (out : ResetOut) (h₁ : env.credsOk = true) (h₂ : env₂.credsOk = true)
    (h : gcp_reset env fs = some out) :
    gcp_reset env₂ none
      = some { fs := none, attempts := [], result := ResetResult.nothingToDo }
    ∧ gcp_reset env₂ out.fs
      = some { fs := none, attempts := [], result := ResetResult.nothingToDo } := by
  have hfs := gcp_reset_ends_without_file env fs out h₁ h
  rw [hfs]
  constructor <;> simp [gcp_reset, h₂]

/-- C2 witness: a concrete run against an absent ledger, then again. -/
theorem c2_reset_idempotent_witness :
    gcp_reset ⟨true, fun _ => true, true⟩ none
      = some { fs := none, attempts := [], result := ResetResult.nothingToDo }
    ∧ gcp_reset ⟨true, fun _ => true, true⟩
        (ResetOut.fs { fs := none, attempts := [], result := ResetResult.nothingToDo })
      = some { fs := none, attempts := [], result := ResetResult.nothingToDo } :=
  c2_reset_idempotent ⟨true, fun _ => true, true⟩ ⟨true, fun _ => true, true⟩
    none { fs := none, attempts := [], result := ResetResult.nothingToDo }
    rfl rfl rfl

theorem attemptedBuckets_append (l₁ l₂ : List DeleteAttempt) :
    attemptedBuckets (l₁ ++ l₂) = attemptedBuckets l₁ ++ attemptedBuckets l₂ := by
  simp [attemptedBuckets, List.filterMap_append]

theorem attemptedServices_append (l₁ l₂ : List DeleteAttempt) :
    attemptedServices (l₁ ++ l₂) = attemptedServices l₁ ++ attemptedServices l₂ := by
  simp [attemptedServices, List.filterMap_append]

theorem attemptedBuckets_map (f : String → Bool) (l : List String) :
    attemptedBuckets (l.map fun b => DeleteAttempt.bucket b (f b)) = l := by
  induction l with
  | nil => rfl
  | cons x xs ih => simpa [attemptedBuckets, List.filterMap_cons] using ih

theorem attemptedServices_map (f : String → Bool) (l : List String) :
    attemptedServices (l.map fun b => DeleteAttempt.bucket b (f b)) = [] := by
  induction l with
  | nil => rfl
  | cons x xs _ => simp [attemptedServices, List.filterMap_cons]

theorem attemptedBuckets_serviceAttempts (env : ResetEnv) (svc : Option String) :
    attemptedBuckets (serviceAttempts env svc) = [] := by
  cases svc with
  | none => rfl
  | some s => by_cases hs : s = "" <;> simp [serviceAttempts, hs, attemptedBuckets]

theorem attemptedServices_serviceAttempts (env : ResetEnv) (svc : Option String) :
    attemptedServices (serviceAttempts env svc)
      = (match svc with
         | some s => if s = "" then [] else [s]
         | none => []) := by
  cases svc with
  | none => rfl
  | some s => by_cases hs : s = "" <;> simp [serviceAttempts, hs, attemptedServices]

/-- C3: on any ledger record, `gcp_reset` attempts every listed bucket in
recorded order and the listed (non-empty) service exactly once each,
regardless of which individual deletions fail (the deletion-success
environment is arbitrary), and afterwards the ledger file is always
removed. -/
theorem c3_reset_attempts_all_then_clears (env : ResetEnv) (j : Json)
    (led : Ledger) (out : ResetOut) (h₁ : env.credsOk = true)
    (hled : Ledger.fromJson j = some led)
    (h : gcp_reset env (some j) = some out) :
    attemptedBuckets out.attempts = led.buckets
    ∧ attemptedServices out.attempts
        = (match led.cloud_run_service with
           | some s => if s = "" then [] else [s]
           | none => [])
    ∧ out.fs = none := by
  simp [gcp_reset, h₁, hled] at h
  rw [← h]
  refine ⟨?_, ?_, rfl⟩
  · rw [attemptedBuckets_append, attemptedBuckets_map,
      attemptedBuckets_serviceAttempts, List.append_nil]
  · rw [attemptedServices_append, attemptedServices_map,
      attemptedServices_serviceAttempts, List.nil_append]

/-- C3 witness: a two-bucket ledger with a service, where the first bucket
deletion fails: both buckets and the service are still attempted and the
file is removed. -/
theorem c3_reset_attempts_all_then_clears_witness :
    attemptedBuckets
        [DeleteAttempt.bucket "b1" false, DeleteAttempt.bucket "b2" true,
         DeleteAttempt.service "svc" true]
      = ["b1", "b2"]
    ∧ attemptedServices
        [DeleteAttempt.bucket "b1" false, DeleteAttempt.bucket "b2" true,
         DeleteAttempt.service "svc" true]
        = (match (some "svc" : Option String) with
           | some s => if s = "" then [] else [s]
           | none => [])
    ∧ (ResetOut.fs
        { fs := none
          attempts :=
            [DeleteAttempt.bucket "b1" false, DeleteAttempt.bucket "b2" true,
             DeleteAttempt.service "svc" true]
          result := ResetResult.completed }) = none :=
  c3_reset_attempts_all_then_clears
    ⟨true, fun b => b ≠ "b1", true⟩
    (Ledger.toJson ⟨["b1", "b2"], some "svc", none⟩)
    ⟨["b1", "b2"], some "svc", none⟩
    { fs := none
      attempts :=
        [DeleteAttempt.bucket "b1" false, DeleteAttempt.bucket "b2" true,
         DeleteAttempt.service "svc" true]
      result := ResetResult.completed }
    rfl (Ledger.fromJson_toJson _) rfl

/-- C7: if bucket creation fails, the `setup` run aborts with no ledger
write at all: the file is unchanged and the write trace is empty. -/
theorem c7_no_write_on_bucket_failure (env : SetupEnv) (fs : Option Json)
    (sn : String) (h₁ : env.credsOk = true) (h₂ : env.createBucketOk = false) :
    (gcp_setup env fs sn).writes = []
    ∧ (gcp_setup env fs sn).fs = fs
    ∧ (gcp_setup env fs sn).result = SetupResult.fatal "bucket" "create_bucket raised" := by
  simp [gcp_setup, h₁, h₂]

/-- C7 witness: a concrete failing-bucket run starting from no ledger. -/
theorem c7_no_write_on_bucket_failure_witness :
    (gcp_setup ⟨"0123456789abcdef0123456789abcdef", true, false,
        Except.ok "https://svc.run.app", HttpOutcome.exn "unused"⟩ none "svc1").writes = []
    ∧ (gcp_setup ⟨"0123456789abcdef0123456789abcdef", true, false,
        Except.ok "https://svc.run.app", HttpOutcome.exn "unused"⟩ none "svc1").fs = none
    ∧ (gcp_setup ⟨"0123456789abcdef0123456789abcdef", true, false,
        Except.ok "https://svc.run.app", HttpOutcome.exn "unused"⟩ none "svc1").result
        = SetupResult.fatal "bucket" "create_bucket raised" :=
  c7_no_write_on_bucket_failure _ none "svc1" rfl rfl

/-- A concrete `setup` environment for the deploy-failure runs: bucket
creation succeeds, the build/deploy step raises. -/
def envDeployFails : SetupEnv :=
  { uuidHex := "0123456789abcdef0123456789abcdef"
    credsOk := true
    createBucketOk := true
    deployResult := Except.error "Command failed: gcloud builds submit"
    verifyOutcome := HttpOutcome.exn "not reached" }

/-- C1 counterexample: in a run where bucket creation succeeds and deploy
fails, the persisted ledger record carries `cloud_run_service =
"example-fetcher"` — a service field — contradicting the claim that it
contains no service name. -/
theorem c1_counterexample :
    (gcp_setup envDeployFails none).fs.bind Ledger.fromJson
      = some { buckets := ["automation-bucket-01234567"]
               cloud_run_service := some "example-fetcher"
               cloud_run_url := none }
    ∧ (some "example-fetcher" : Option String) ≠ none := by
  constructor
  · rfl
  · simp

/-- C1 (amended): if bucket creation succeeds and the deploy step fails,
the persisted ledger contains exactly the created bucket name together
with the requested service name, and no service URL. -/
theorem c1_ledger_after_deploy_failure (env : SetupEnv) (fs : Option Json)
    (sn e : String) (h₁ : env.credsOk = true) (h₂ : env.createBucketOk = true)
    (h₃ : env.deployResult = Except.error e) :
    (gcp_setup env fs sn).fs
      = some (Ledger.toJson
          { buckets := [bucket_name env]
            cloud_run_service := some sn
            cloud_run_url := none })
    ∧ (gcp_setup env fs sn).fs.bind Ledger.fromJson
      = some { buckets := [bucket_name env]
               cloud_run_service := some sn
               cloud_run_url := none } := by
  simp [gcp_setup, h₁, h₂, h₃, ledger_save, Ledger.fromJson_toJson]

/-- C1 witness: the amended statement at the concrete deploy-failure run. -/
theorem c1_ledger_after_deploy_failure_witness :
    (gcp_setup envDeployFails none "svc1").fs
      = some (Ledger.toJson
          { buckets := [bucket_name envDeployFails]
            cloud_run_service := some "svc1"
            cloud_run_url := none })
    ∧ (gcp_setup envDeployFails none "svc1").fs.bind Ledger.fromJson
      = some { buckets := [bucket_name envDeployFails]
               cloud_run_service := some "svc1"
               cloud_run_url := none } :=
  c1_ledger_after_deploy_failure envDeployFails none "svc1"
    "Command failed: gcloud builds submit" rfl rfl rfl

/-- C6: the verifier performs exactly one HTTP GET, with the default
timeout of 20; it is a total function producing a report on every outcome
(failures are captured, never raised); and the `setup` outcome — final
file state, ledger writes, and result — does not depend on the
verification outcome. -/
theorem c6_verify_single_get_diagnostic_only (url : String) (o : HttpOutcome)
    (env : SetupEnv) (v : HttpOutcome) (fs : Option Json) (sn : String) :
    (verify_service_and_fetch url o).calls = [(url, 20)]
    ∧ (verify_service_and_fetch url o).lines ≠ []
    ∧ (gcp_setup { env with verifyOutcome := v } fs sn).fs = (gcp_setup env fs sn).fs
    ∧ (gcp_setup { env with verifyOutcome := v } fs sn).writes
        = (gcp_setup env fs sn).writes
    ∧ (gcp_setup { env with verifyOutcome := v } fs sn).result
        = (gcp_setup env fs sn).result := by
  obtain ⟨u, c, b, d, vo⟩ := env
  refine ⟨?_, ?_, ?_, ?_, ?_⟩
  · cases o <;> rfl
  · cases o <;> simp [verify_service_and_fetch]
  · cases c <;> cases b <;> cases d <;> rfl
  · cases c <;> cases b <;> cases d <;> rfl
  · cases c <;> cases b <;> cases d <;> rfl

theorem pyTake_length_le (s : String) (n : Nat) : (pyTake s n).length ≤ n := by
  show (s.data.take n).length ≤ n
  rw [List.length_take]
  exact Nat.min_le_left _ _

/-- C8: the deployed service's GET handler returns a JSON object with
`service_env`, `example_status` and an `example_excerpt` of at most 2000
characters, and its HTTP status equals the upstream fetch's status — 500
when the upstream fetch raises. -/
theorem c8_index_response_shape (cenv : ContainerEnv) (fetch : FetchOutcome) :
    ∃ d envJ ex,
      (index cenv fetch).1 = Json.obj d
      ∧ dictGet d "service_env" = some envJ
      ∧ dictGet d "example_status" = some (Json.num (index cenv fetch).2)
      ∧ dictGet d "example_excerpt" = some (Json.str ex)
      ∧ ex.length ≤ 2000
      ∧ (index cenv fetch).2
          = (match fetch with
             | FetchOutcome.ok s _ => s
             | FetchOutcome.exn _ => 500) := by
  cases fetch with
  | ok s t =>
      exact ⟨_, _, _, rfl, rfl, rfl, rfl, pyTake_length_le _ _, rfl⟩
  | exn e =>
      exact ⟨_, _, _, rfl, rfl, rfl, rfl, pyTake_length_le _ _, rfl⟩

/-- C9: the generated bucket name is the fixed text `automation-bucket-`
followed by the first 8 characters of the uuid4 hex digest — an
8-hexadecimal-character suffix (uuid4's `.hex` is 32 lowercase hex
characters, taken as a hypothesis about the uuid library). -/
theorem c9_bucket_name_shape (env : SetupEnv)
    (hlen : env.uuidHex.length = 32)
    (hhex : env.uuidHex.data.all isHexLower = true) :
    ∃ suffix : String,
      bucket_name env = "automation-bucket-" ++ suffix
      ∧ suffix.length = 8
      ∧ suffix.data.all isHexLower = true := by
  refine ⟨pyTake env.uuidHex 8, rfl, ?_, ?_⟩
  · have h32 : env.uuidHex.data.length = 32 := hlen
    show (env.uuidHex.data.take 8).length = 8
    rw [List.length_take]
    omega
  · show (env.uuidHex.data.take 8).all isHexLower = true
    rw [List.all_eq_true] at hhex ⊢
    intro c hc
    exact hhex c (List.take_subset _ _ hc)

/-- C9 witness: the shape at a concrete uuid digest. -/
theorem c9_bucket_name_shape_witness :
    (SetupEnv.uuidHex envDeployFails).length = 32
    ∧ ∃ suffix : String,
        bucket_name envDeployFails = "automation-bucket-" ++ suffix
        ∧ suffix.length = 8
        ∧ suffix.data.all isHexLower = true :=
  ⟨rfl, c9_bucket_name_shape envDeployFails rfl rfl⟩

/-- C10: a ledger record lacking the `buckets` field or the
`cloud_run_service` field is still handled: the reset completes and
removes the file; a missing `buckets` key decodes to no buckets, and a
missing service key yields no service-deletion attempt. -/
theorem c10_reset_tolerates_missing_fields (env : ResetEnv)
    (d : List (String × Json)) (led : Ledger) (h₁ : env.credsOk = true)
    (hled : Ledger.fromJson (Json.obj d) = some led) :
    (∃ out, gcp_reset env (some (Json.obj d)) = some out
        ∧ out.fs = none ∧ out.result = ResetResult.completed)
    ∧ (dictGet d "buckets" = none → led.buckets = [])
    ∧ (dictGet d "cloud_run_service" = none →
        serviceAttempts env led.cloud_run_service = []) := by
  refine ⟨⟨{ fs := none
             attempts :=
               led.buckets.map (fun b => DeleteAttempt.bucket b (env.deleteBucketOk b))
                 ++ serviceAttempts env led.cloud_run_service
             result := ResetResult.completed },
           by simp [gcp_reset, h₁, hled], rfl, rfl⟩, ?_, ?_⟩
  · intro hb
    rw [Ledger.fromJson, hb] at hled
    simp [decodeBuckets, Option.bind_eq_some] at hled
    obtain ⟨sv, _, url, _, heq⟩ := hled
    rw [← heq]
  · intro hs
    rw [Ledger.fromJson, hs] at hled
    simp [decodeOptStr, Option.bind_eq_some] at hled
    obtain ⟨bs, _, url, _, heq⟩ := hled
    rw [← heq]
    rfl

/-- C10 witness: the empty record (both fields absent) resets cleanly. -/
theorem c10_reset_tolerates_missing_fields_witness :
    (∃ out, gcp_reset ⟨true, fun _ => true, true⟩ (some (Json.obj [])) = some out
        ∧ out.fs = none ∧ out.result = ResetResult.completed)
    ∧ (dictGet [] "buckets" = none → Ledger.buckets ⟨[], none, none⟩ = [])
    ∧ (dictGet [] "cloud_run_service" = none →
        serviceAttempts ⟨true, fun _ => true, true⟩
          (Ledger.cloud_run_service ⟨[], none, none⟩) = []) :=
  c10_reset_tolerates_missing_fields ⟨true, fun _ => true, true⟩ [] ⟨[], none, none⟩
    rfl rfl

end GcpSetup
